import Mathlib

/-!
Verification of the line-handling core of the nadi-gis QGIS plugin
(`src/qgis/nadi/nadi_exe.py`, with the terminal-status reporting of
`src/qgis/nadi/nadi_order.py` and `src/qgis/nadi/nadi_network.py`).

Text is embedded as `List Char` (Python `str`).  The stateful closures
`stdout_handlr` / `stderr_handlr` become state-passing functions; the
`feedback` method calls they perform become an emitted list of
`FeedbackCall` values, in call order.
-/

namespace NadiExe

/-- Python text, embedded as a list of characters. -/
abbrev Str := List Char

/-- Python `str.lstrip()` over the whitespace characters that occur here
(space, tab, carriage return, newline). -/
def stripLeft (s : Str) : Str := s.dropWhile Char.isWhitespace

/-- Python `str.rstrip()` over the same whitespace characters. -/
def stripRight (s : Str) : Str := (s.reverse.dropWhile Char.isWhitespace).reverse

/-- Python `str.strip()` (no arguments): remove leading and trailing
whitespace. -/
def pyStrip (s : Str) : Str := stripLeft (stripRight s)

/-- Python `s.split(c, maxsplit=1)` restricted to its successful two-part
unpacking: `some (before, after)` at the first occurrence of `c`, `none`
when `c` does not occur (in which case the Python tuple unpacking in the
source raises `ValueError`). -/
def splitOnceChar (c : Char) : Str → Option (Str × Str)
  | [] => none
  | x :: rest =>
    if x = c then some ([], rest)
    else
      match splitOnceChar c rest with
      | none => none
      | some p => some (x :: p.1, p.2)

/-- Python `s.rsplit("\n", maxsplit=1)` restricted to its successful
two-part unpacking: split at the last newline, `none` when there is no
newline (the source's `except ValueError` branch). -/
def rsplitOnceNl (s : Str) : Option (Str × Str) :=
  match splitOnceChar '\n' s.reverse with
  | none => none
  | some p => some (p.2.reverse, p.1.reverse)

/-- Python `s.split("\n")`: every newline separates segments; the result is
never empty (`"".split("\n") == [""]`). -/
def splitNl : Str → List Str
  | [] => [[]]
  | c :: rest =>
    if c = '\n' then [] :: splitNl rest
    else
      match splitNl rest with
      | [] => [[c]]
      | l :: ls => (c :: l) :: ls

/-- Digit run of a Python integer literal after the optional sign:
decimal digits with single underscores allowed between digits
(`int("1_0") == 10`, `int("1__0")` and `int("1_")` raise).  `acc` is the
value of the digits consumed so far. -/
def digitsVal : Str → Nat → Option Nat
  | [], acc => some acc
  | '_' :: c :: rest, acc =>
    if c.isDigit then digitsVal rest (acc * 10 + (c.toNat - 48)) else none
  | ['_'], _ => none
  | c :: rest, acc =>
    if c.isDigit then digitsVal rest (acc * 10 + (c.toNat - 48)) else none

/-- Value of a non-empty digit-and-underscore run; the first character must
be a digit (no leading underscore). -/
def pyIntDigits : Str → Option Nat
  | [] => none
  | c :: rest => if c.isDigit then digitsVal rest (c.toNat - 48) else none

/-- Python `int(s)` on decimal text: surrounding whitespace is stripped, an
optional single sign is allowed, then a non-empty digit run (`none` models
the `ValueError`).  Non-ASCII decimal digits are outside the model. -/
def pyInt (s : Str) : Option Int :=
  match pyStrip s with
  | '+' :: rest => (pyIntDigits rest).map Int.ofNat
  | '-' :: rest => (pyIntDigits rest).map (fun n => -(n : Int))
  | rest => (pyIntDigits rest).map Int.ofNat

/-- One call performed on the QGIS `feedback` object by the handlers in
`nadi_exe.py` / `nadi_order.py` / `nadi_network.py`. -/
inductive FeedbackCall where
  | setProgressText (label : Str)
  | setProgress (n : Int)
  | pushInfo (text : Str)
  | pushWarning (text : Str)
  | reportError (text : Str)
  deriving DecidableEq

/-- The buffer-accumulation step shared by `stdout_handlr` and
`stderr_handlr` (nadi_exe.py lines 16-22 and 34-41):
`lines = handler._buffer + chunk`; if `lines` does not end with a newline
it is rsplit at the last newline (storing the tail as the new buffer), and
when it has no newline at all the whole text is stored and the handler
returns without emitting.  Note that in the ends-with-newline branch the
source leaves `_buffer` untouched, so the first component is the OLD
buffer. -/
def feedAccum (buffer chunk : Str) : Str × Option Str :=
  let lines := buffer ++ chunk
  if lines.getLast? = some '\n' then (buffer, some lines)
  else
    match rsplitOnceNl lines with
    | some p => (p.2, some p.1)
    | none => (lines, none)

/-- State captured by the stdout handler closure: `stdout_handlr._buffer`
and `stdout_handlr._curr`. -/
structure StdoutState where
  buffer : Str
  curr : Str
  deriving DecidableEq

/-- Initial closure state set in `qgis_nadi_proc` (nadi_exe.py lines
43-45): `_buffer = ''`, `_curr = ''`. -/
def initStdoutState : StdoutState := ⟨[], []⟩

/-- The per-line body of the stdout handler's `for` loop (nadi_exe.py
lines 24-31): split the stripped line at the first colon; on success emit
`setProgressText` and update `_curr` when the label changed, then call
`int` on the rest and emit `setProgress`; any `ValueError` (no colon, or
the `int` call failing AFTER the label side effect already happened) ends
in `pushInfo(line)`. -/
def stdoutLine (curr : Str) (line : Str) : Str × List FeedbackCall :=
  match splitOnceChar ':' (pyStrip line) with
  | none => (curr, [.pushInfo line])
  | some p =>
    let r :=
      if p.1 ≠ curr then (p.1, [FeedbackCall.setProgressText p.1]) else (curr, [])
    match pyInt p.2 with
    | some n => (r.1, r.2 ++ [.setProgress n])
    | none => (r.1, r.2 ++ [.pushInfo line])

/-- The stdout handler's `for line in lines.strip().split('\n')` loop. -/
def stdoutLines : Str → List Str → Str × List FeedbackCall
  | curr, [] => (curr, [])
  | curr, l :: rest =>
    let r1 := stdoutLine curr l
    let r2 := stdoutLines r1.1 rest
    (r2.1, r1.2 ++ r2.2)

/-- `stdout_handlr` of nadi_exe.py (lines 15-31) as a state-passing
function on one decoded chunk. -/
def stdout_handlr (st : StdoutState) (chunk : Str) : StdoutState × List FeedbackCall :=
  let acc := feedAccum st.buffer chunk
  match acc.2 with
  | none => (⟨acc.1, st.curr⟩, [])
  | some lines =>
    let r := stdoutLines st.curr (splitNl (pyStrip lines))
    (⟨acc.1, r.1⟩, r.2)

/-- The stderr handler's `for` loop: one `pushWarning` per line. -/
def stderrPush : List Str → List FeedbackCall
  | [] => []
  | l :: rest => FeedbackCall.pushWarning l :: stderrPush rest

/-- `stderr_handlr` of nadi_exe.py (lines 33-42) as a state-passing
function on one decoded chunk; the state is `stderr_handlr._buffer`. -/
def stderr_handlr (buffer chunk : Str) : Str × List FeedbackCall :=
  let acc := feedAccum buffer chunk
  match acc.2 with
  | none => (acc.1, [])
  | some lines => (acc.1, stderrPush (splitNl (pyStrip lines)))

/-- Line production common to both handlers, before classification: the
sequence of lines the `for` loop of either handler iterates over for one
chunk, with the resulting buffer. -/
def demuxFeed (buffer chunk : Str) : Str × List Str :=
  let acc := feedAccum buffer chunk
  match acc.2 with
  | none => (acc.1, [])
  | some lines => (acc.1, splitNl (pyStrip lines))

/-- Feeding a sequence of chunks to the line-production step. -/
def demuxFeedMany : Str → List Str → Str × List Str
  | buffer, [] => (buffer, [])
  | buffer, c :: cs =>
    let r1 := demuxFeed buffer c
    let r2 := demuxFeedMany r1.1 cs
    (r2.1, r1.2 ++ r2.2)

/-- Feeding a sequence of chunks to `stderr_handlr`. -/
def stderrFeedMany : Str → List Str → Str × List FeedbackCall
  | buffer, [] => (buffer, [])
  | buffer, c :: cs =>
    let r1 := stderr_handlr buffer c
    let r2 := stderrFeedMany r1.1 cs
    (r2.1, r1.2 ++ r2.2)

/-- Terminal-status report of `NadiOrder.processAlgorithm` (nadi_order.py
lines 117-125) and `NadiNetwork.processAlgorithm` (nadi_network.py lines
188-196), both verbatim:
`if feedback.isCanceled(): pushInfo("Cancelled") elif res != 0:
reportError("Error") else: pushInfo("Completed")`. -/
def processAlgorithmTerminal (isCanceled : Bool) (res : Int) : FeedbackCall :=
  if isCanceled then .pushInfo "Cancelled".data
  else if res ≠ 0 then .reportError "Error".data
  else .pushInfo "Completed".data

/-- Reference splitter, following the spec's words (section 8,
chunk-boundary invariance): split the whole text on newlines; a trailing
empty segment is the empty pending suffix (flush is a no-op on it), a
trailing non-empty segment is flushed as one final line. -/
def specSplitLines (t : Str) : List Str :=
  let segs := splitNl t
  match segs.getLast? with
  | some [] => segs.dropLast
  | _ => segs

/-- Reference buffer content, following the spec's words (section 3,
StreamBuffer invariant): the suffix of all text received so far that
follows the last newline (the whole text when there is none). -/
def specSuffixAfterLastNl (t : Str) : Str :=
  match rsplitOnceNl t with
  | some p => p.2
  | none => t

/-- Reference reconstruction, following the spec's words (section 8, no
loss / no duplication): every emitted line followed by its newline, then
the remaining buffered suffix. -/
def specRejoin (lines : List Str) (rest : Str) : Str :=
  (lines.map (fun l => l ++ ['\n'])).flatten ++ rest

end NadiExe
namespace NadiExe

theorem splitOnceChar_append (c : Char) (l r : Str) (h : c ∉ l) :
    splitOnceChar c (l ++ c :: r) = some (l, r) := by
  induction l with
  | nil => simp [splitOnceChar]
  | cons x xs ih =>
    have hx : ¬ x = c := fun he => h (he ▸ List.mem_cons_self x xs)
    have hxs : c ∉ xs := fun hm => h (List.mem_cons_of_mem x hm)
    simp [splitOnceChar, hx, ih hxs]

theorem splitNl_ne_nil (s : Str) : splitNl s ≠ [] := by
  cases s with
  | nil => simp [splitNl]
  | cons c rest =>
    by_cases h : c = '\n'
    · simp [splitNl, h]
    · simp only [splitNl, if_neg h]
      cases hr : splitNl rest <;> simp

theorem splitNl_no_nl (s : Str) (h : '\n' ∉ s) : splitNl s = [s] := by
  induction s with
  | nil => rfl
  | cons c rest ih =>
    have hc : ¬ c = '\n' := fun he => h (he ▸ List.mem_cons_self c rest)
    have hrest : '\n' ∉ rest := fun hm => h (List.mem_cons_of_mem c hm)
    simp [splitNl, hc, ih hrest]

theorem splitNl_append (s r : Str) (h : '\n' ∉ s) :
    splitNl (s ++ '\n' :: r) = s :: splitNl r := by
  induction s with
  | nil => simp [splitNl]
  | cons x xs ih =>
    have hx : ¬ x = '\n' := fun he => h (he ▸ List.mem_cons_self x xs)
    have hxs : '\n' ∉ xs := fun hm => h (List.mem_cons_of_mem x hm)
    simp only [List.cons_append, splitNl, if_neg hx]
    rw [show xs.append ('\n' :: r) = xs ++ '\n' :: r from rfl, ih hxs]

theorem pyStrip_concat_nl (s : Str) : pyStrip (s ++ ['\n']) = pyStrip s := by
  unfold pyStrip stripRight
  simp [List.reverse_append]

theorem stderrPush_eq_map (ls : List Str) :
    stderrPush ls = ls.map FeedbackCall.pushWarning := by
  induction ls with
  | nil => rfl
  | cons l rest ih => simp [stderrPush, ih]

theorem stdoutLine_nil (curr : Str) : stdoutLine curr [] = (curr, [.pushInfo []]) := rfl

theorem stdoutLine_parse (curr L R : Str) (P : Int) (hL : ':' ∉ L)
    (hstrip : pyStrip (L ++ ':' :: R) = L ++ ':' :: R) (hint : pyInt R = some P) :
    stdoutLine curr (L ++ ':' :: R) =
      (L, (if L = curr then [] else [.setProgressText L]) ++ [.setProgress P]) := by
  unfold stdoutLine
  rw [hstrip, splitOnceChar_append ':' L R hL]
  by_cases h : L = curr
  · subst h; simp [hint]
  · simp [hint, h]

theorem stdoutLine_noColon (s curr : Str) (h : splitOnceChar ':' (pyStrip s) = none) :
    stdoutLine curr s = (curr, [.pushInfo s]) := by
  unfold stdoutLine
  rw [h]

theorem stdoutLine_intFail (s curr lab R : Str)
    (h : splitOnceChar ':' (pyStrip s) = some (lab, R)) (hR : pyInt R = none) :
    stdoutLine curr s =
      (lab, (if lab = curr then [] else [.setProgressText lab]) ++ [.pushInfo s]) := by
  unfold stdoutLine
  rw [h]
  by_cases hc : lab = curr
  · subst hc; simp [hR]
  · simp [hR, hc]

end NadiExe
namespace NadiExe

/-- C1: the Line Demultiplexer is NOT chunk-boundary invariant: feeding
"a\nb\nc\n" as the chunks "a\nb", "\n", "c\n" emits the lines "a", "b",
"bc", while the single-chunk feed (and the spec's direct split) gives
"a", "b", "c" — the pending buffer is not cleared when the accumulated
text ends in a newline, so "b" is prepended a second time. -/
theorem C1_chunk_invariance_refuted :
    (demuxFeedMany [] ["a\nb".data, "\n".data, "c\n".data]).2 =
      ["a".data, "b".data, "bc".data] ∧
    (demuxFeedMany [] ["a\nb\nc\n".data]).2 = ["a".data, "b".data, "c".data] ∧
    specSplitLines "a\nb\nc\n".data = ["a".data, "b".data, "c".data] ∧
    (["a".data, "b".data, "bc".data] : List Str) ≠ ["a".data, "b".data, "c".data] := by
  decide

/-- C2: the StreamBuffer invariant fails: after feeding "a\nb" then "\n",
the stored state is still "b" although the suffix of all received bytes
after the last newline is empty — the handler never resets the buffer in
its ends-with-newline branch. -/
theorem C2_buffer_invariant_refuted :
    (demuxFeedMany [] ["a\nb".data, "\n".data]).1 = "b".data ∧
    specSuffixAfterLastNl ("a\nb".data ++ "\n".data) = [] ∧
    ("b".data : Str) ≠ [] := by decide

/-- C3: there is no end-of-data flush anywhere in `qgis_nadi_proc`: after
feeding "warn one\nwarn " then "two" on the error stream, only the
warning "warn one" has been emitted and "warn two" is stuck in the buffer
with no code path that ever emits it. -/
theorem C3_flush_never_happens :
    stderrFeedMany [] ["warn one\nwarn ".data, "two".data] =
      ("warn two".data, [.pushWarning "warn one".data]) ∧
    FeedbackCall.pushWarning "warn two".data ∉
      (stderrFeedMany [] ["warn one\nwarn ".data, "two".data]).2 := by decide

/-- C4 counterexample: the output line "x:200" is classified as a progress
update with percent 200 (no InfoEvent at all) although 200 is outside
[0,100], and for the line " y:5" the phase label recorded is the stripped
"y", not " y". -/
theorem C4_shape_restriction_refuted :
    (stdoutLine [] "x:200".data).2 =
      [.setProgressText "x".data, .setProgress 200] ∧
    FeedbackCall.pushInfo "x:200".data ∉ (stdoutLine [] "x:200".data).2 ∧
    (stdoutLine [] " y:5".data).1 = "y".data ∧ ("y".data : Str) ≠ " y".data := by decide

/-- C4 (amended): for every label L without a colon and rest R parsing as
a Python integer P — any integer, with the whole line stable under
whitespace-stripping — the line "L:R" yields a phase change to L (when L
differs from the current label) followed by setProgress(P); every line
whose stripped text has no colon or whose rest fails integer parsing
yields a pushInfo of the line and never a setProgress. -/
theorem C4_progress_classification :
    (∀ (L R : Str) (P : Int) (curr : Str), ':' ∉ L →
      pyStrip (L ++ ':' :: R) = L ++ ':' :: R → pyInt R = some P →
      stdoutLine curr (L ++ ':' :: R) =
        (L, (if L = curr then [] else [.setProgressText L]) ++ [.setProgress P])) ∧
    (∀ (s curr : Str),
      (splitOnceChar ':' (pyStrip s) = none ∨
        ∃ lab R, splitOnceChar ':' (pyStrip s) = some (lab, R) ∧ pyInt R = none) →
      FeedbackCall.pushInfo s ∈ (stdoutLine curr s).2 ∧
      ∀ n, FeedbackCall.setProgress n ∉ (stdoutLine curr s).2) := by
  constructor
  · exact fun L R P curr hL hstrip hint => stdoutLine_parse curr L R P hL hstrip hint
  · intro s curr h
    rcases h with h | ⟨lab, R, h, hR⟩
    · rw [stdoutLine_noColon s curr h]; simp
    · rw [stdoutLine_intFail s curr lab R h hR]
      by_cases hc : lab = curr <;> simp [hc]

/-- Witness for C4: concrete instances "x:200" (progress 200 emitted) and
"a:b" (informational, no progress call). -/
theorem C4_progress_classification_witness :
    stdoutLine [] ("x".data ++ ':' :: "200".data) =
      ("x".data, [.setProgressText "x".data, .setProgress 200]) ∧
    (FeedbackCall.pushInfo "a:b".data ∈ (stdoutLine [] "a:b".data).2 ∧
      ∀ n, FeedbackCall.setProgress n ∉ (stdoutLine [] "a:b".data).2) := by
  constructor
  · have h := C4_progress_classification.1 "x".data "200".data 200 []
      (by decide) (by decide) (by decide)
    have hne : ("x".data : Str) ≠ [] := by decide
    simpa [hne] using h
  · exact C4_progress_classification.2 "a:b".data []
      (Or.inr ⟨"a".data, "b".data, by decide, by decide⟩)

/-- C5 counterexample: for the line "abc:xyz" (colon present, rest fails
integer parsing) the handler emits setProgressText("abc") and updates the
tracked label to "abc" BEFORE the failing int() call, then pushes the
info line — the claim said only an InfoEvent with the label unchanged. -/
theorem C5_atomicity_refuted :
    stdoutLine [] "abc:xyz".data =
      ("abc".data, [.setProgressText "abc".data, .pushInfo "abc:xyz".data]) ∧
    ("abc".data : Str) ≠ [] := by decide

/-- C5 (amended): a line with no colon in its stripped text yields exactly
one pushInfo and leaves the tracked label unchanged; a line with a colon
whose rest fails integer parsing yields a pushInfo and no setProgress,
but a phase change is emitted first and the tracked label is updated
whenever the text before the colon differs from it. -/
theorem C5_malformed_progress :
    (∀ s curr : Str, splitOnceChar ':' (pyStrip s) = none →
      stdoutLine curr s = (curr, [.pushInfo s])) ∧
    (∀ s curr lab R : Str,
      splitOnceChar ':' (pyStrip s) = some (lab, R) → pyInt R = none →
      stdoutLine curr s =
        (lab, (if lab = curr then [] else [.setProgressText lab]) ++ [.pushInfo s])) :=
  ⟨stdoutLine_noColon, stdoutLine_intFail⟩

/-- Witness for C5: the no-colon line "hello" and the unparseable line
"a:b". -/
theorem C5_malformed_progress_witness :
    stdoutLine [] "hello".data = ([], [.pushInfo "hello".data]) ∧
    stdoutLine [] "a:b".data =
      ("a".data, [.setProgressText "a".data, .pushInfo "a:b".data]) := by
  constructor
  · exact C5_malformed_progress.1 "hello".data [] (by decide)
  · have h := C5_malformed_progress.2 "a:b".data [] "a".data "b".data
      (by decide) (by decide)
    have hne : ("a".data : Str) ≠ [] := by decide
    simpa [hne] using h

/-- C6: no-loss/no-duplication fails: for the chunks "a\nb", "\n", "c\n"
the handler emits "a", "b", "bc" with remaining buffer "b"; re-joining
with newlines plus the remainder gives "a\nb\nbc\nb", not the original
"a\nb\nc\n" — the byte "b" is emitted twice and merged into "bc". -/
theorem C6_no_loss_refuted :
    demuxFeedMany [] ["a\nb".data, "\n".data, "c\n".data] =
      ("b".data, ["a".data, "b".data, "bc".data]) ∧
    specRejoin ["a".data, "b".data, "bc".data] "b".data ≠
      "a\nb".data ++ "\n".data ++ "c\n".data := by decide

/-- C7: exactly one terminal report per run: the `if/elif/else` of
`processAlgorithm` reports Cancelled exactly when cancellation was
requested, Error exactly when not cancelled and the exit code is
non-zero, and Completed exactly when not cancelled and the exit code is
zero. -/
theorem C7_terminal_exclusive :
    ∀ (c : Bool) (res : Int),
      (processAlgorithmTerminal c res = .pushInfo "Cancelled".data ↔ c = true) ∧
      (processAlgorithmTerminal c res = .reportError "Error".data ↔
        c = false ∧ res ≠ 0) ∧
      (processAlgorithmTerminal c res = .pushInfo "Completed".data ↔
        c = false ∧ res = 0) := by
  intro c res
  cases c <;> by_cases h : res = 0 <;> simp [processAlgorithmTerminal, h]

/-- C8: stream routing: every feedback call emitted by `stderr_handlr` is
a pushWarning carrying one of the lines produced for that chunk, and
every produced line (progress-shaped or not) is emitted as a
pushWarning. -/
theorem C8_stream_routing :
    ∀ buffer chunk : Str,
      (∀ e ∈ (stderr_handlr buffer chunk).2,
        ∃ l ∈ (demuxFeed buffer chunk).2, e = FeedbackCall.pushWarning l) ∧
      (∀ l ∈ (demuxFeed buffer chunk).2,
        FeedbackCall.pushWarning l ∈ (stderr_handlr buffer chunk).2) := by
  intro buffer chunk
  simp only [stderr_handlr, demuxFeed]
  cases h : (feedAccum buffer chunk).2 with
  | none => simp
  | some lines =>
    simp only [stderrPush_eq_map]
    constructor
    · intro e he
      rcases List.mem_map.mp he with ⟨l, hl, hle⟩
      exact ⟨l, hl, hle.symm⟩
    · intro l hl
      exact List.mem_map.mpr ⟨l, hl, rfl⟩

/-- Witness for C8: the progress-shaped error line "build:10" is emitted
as a warning. -/
theorem C8_stream_routing_witness :
    FeedbackCall.pushWarning "build:10".data ∈
      (stderr_handlr [] "build:10\n".data).2 :=
  (C8_stream_routing [] "build:10\n".data).2 "build:10".data (by decide)

/-- C9 counterexample: the single chunk "a\n\n" contains consecutive
newlines, yet no empty-string line is emitted: the whole accumulated text
is whitespace-stripped before splitting, so the trailing empty segment
disappears and only pushInfo("a") happens. -/
theorem C9_boundary_empty_refuted :
    (stdout_handlr ⟨[], []⟩ "a\n\n".data).2 = [.pushInfo "a".data] ∧
    FeedbackCall.pushInfo [] ∉ (stdout_handlr ⟨[], []⟩ "a\n\n".data).2 := by decide

/-- C9 (amended): the classifier maps an empty line to pushInfo("") and
does not filter it, and an empty segment from consecutive newlines
strictly inside the stripped content is emitted: feeding
s ++ "\n\n" ++ t ++ "\n" (s, t newline-free, the doubled newline
surviving the strip) emits a pushInfo("") call.  Boundary empty segments
are removed by the strip, as the counterexample shows. -/
theorem C9_empty_lines :
    (∀ curr : Str, stdoutLine curr [] = (curr, [.pushInfo []])) ∧
    (∀ s t curr : Str, '\n' ∉ s → '\n' ∉ t →
      pyStrip (s ++ '\n' :: '\n' :: t) = s ++ '\n' :: '\n' :: t →
      FeedbackCall.pushInfo [] ∈
        (stdout_handlr ⟨[], curr⟩ (s ++ '\n' :: '\n' :: (t ++ ['\n']))).2) := by
  constructor
  · exact stdoutLine_nil
  · intro s t curr hs ht hstrip
    have hchunk : s ++ '\n' :: '\n' :: (t ++ ['\n']) =
        (s ++ '\n' :: '\n' :: t) ++ ['\n'] := by simp
    rw [hchunk]
    simp only [stdout_handlr, feedAccum, List.nil_append, List.getLast?_concat, if_true]
    rw [pyStrip_concat_nl, hstrip, splitNl_append s ('\n' :: t) hs]
    have h2 : splitNl ('\n' :: t) = [] :: splitNl t := by simp [splitNl]
    rw [h2, splitNl_no_nl t ht]
    simp [stdoutLines, stdoutLine_nil]

/-- Witness for C9: the empty line classifies as pushInfo(""), and the
chunk "a\n\nb\n" emits a pushInfo("") for its interior empty segment. -/
theorem C9_empty_lines_witness :
    stdoutLine [] [] = ([], [.pushInfo []]) ∧
    FeedbackCall.pushInfo [] ∈
      (stdout_handlr ⟨[], []⟩ ("a".data ++ '\n' :: '\n' :: ("b".data ++ ['\n']))).2 :=
  ⟨C9_empty_lines.1 [],
   C9_empty_lines.2 "a".data "b".data [] (by decide) (by decide) (by decide)⟩

/-- C10: the tracked phase label starts empty, so the first
progress-shaped line announces a phase change exactly when its label is
non-empty; a first line like ":50" only updates the percent. -/
theorem C10_initial_phase :
    ∀ (L R : Str) (P : Int), ':' ∉ L →
      pyStrip (L ++ ':' :: R) = L ++ ':' :: R → pyInt R = some P →
      stdoutLine initStdoutState.curr (L ++ ':' :: R) =
        (L, if L = [] then [FeedbackCall.setProgress P]
            else [.setProgressText L, .setProgress P]) := by
  intro L R P hL hstrip hint
  have h := stdoutLine_parse initStdoutState.curr L R P hL hstrip hint
  rw [h]
  by_cases hc : L = []
  · subst hc; simp [initStdoutState]
  · simp [initStdoutState, hc]

/-- Witness for C10: the first line ":50" yields only setProgress(50). -/
theorem C10_initial_phase_witness :
    stdoutLine initStdoutState.curr ([] ++ ':' :: "50".data) =
      ([], [.setProgress 50]) := by
  have h := C10_initial_phase [] "50".data 50 (by decide) (by decide) (by decide)
  simpa using h

end NadiExe
